import Mathlib

/-!
Verification of the AtxPowerSwitch firmware core
(src/AtxPowerSwitch.X/AtxPowerSwitch.c).

The firmware is a single-threaded wake-cycle loop: every watchdog tick it
samples the button pin, tracks the press edge, and runs the power state
machine `OnButtonPressed`.  We embed the loop body as a pure step function
on an explicit record of the program's mutable state:

  * `poweredOn`        — the file-scope global `unsigned char poweredOn`;
  * `powerOffArmed`    — the function-static `unsigned char powerOffArmed`
                         inside `OnButtonPressed`;
  * `lastButtonState`  — `main`'s local `unsigned char lastButtonState`;
  * `holdCount`        — `main`'s local `unsigned int holdCount` (16-bit on
                         the XC8 / PIC16 target, hence arithmetic mod 2^16);
  * `TRISC`, `PORTC`   — the hardware registers the `POWER_ON` / `POWER_OFF`
                         macros and the initialization code write.

Registers that play no role in the behavioral contract (ANSEL, PORTA, PORTB,
TRISA, TRISB, OPTION) are one-time hardware setup and are not modelled.

The loop input each cycle is the sampled level of the switch pin
(`SWITCH_INPUT`): `true` means the pin reads 1, which by the inverted wiring
means the button is NOT pressed; `false` means pressed.
-/

namespace AtxPowerSwitch

/-- How long, in milliseconds, the power button must be held before powering
off (`POWER_OFF_TIME_MS` in the source). -/
def POWER_OFF_TIME_MS : Nat := 500

/-- The nominal watchdog timeout value, including pre-scaler, in milliseconds
(`WDT_MS = 18*2` in the source). -/
def WDT_MS : Nat := 18 * 2

/-- The approximate number of wake cycles per second
(`TICK_RATE_HZ = 1000 / WDT_MS`, C integer division). -/
def TICK_RATE_HZ : Nat := 1000 / WDT_MS

/-- The number of wake cycles before powering off, exactly as the source
computes it: `POWER_OFF_COUNT = POWER_OFF_TIME_MS / TICK_RATE_HZ`
(C integer division). -/
def POWER_OFF_COUNT : Nat := POWER_OFF_TIME_MS / TICK_RATE_HZ

/-- The mutable state of the program: the global, the function-static, the
two locals of `main`, and the two hardware registers the core writes. -/
structure State where
  poweredOn : Nat
  powerOffArmed : Nat
  lastButtonState : Nat
  holdCount : Nat
  TRISC : Nat
  PORTC : Nat
deriving DecidableEq

/-- The `POWER_OFF` macro: `TRISC = 0b10000000; poweredOn = 0;`
(RC7 becomes a high-impedance input, releasing the ATX power-on line). -/
def POWER_OFF (s : State) : State :=
  { s with TRISC := 0b10000000, poweredOn := 0 }

/-- The `POWER_ON` macro: `TRISC = 0b00000000; poweredOn = 1;`
(RC7 becomes an output, driven low since the PORTC latch is 0). -/
def POWER_ON (s : State) : State :=
  { s with TRISC := 0b00000000, poweredOn := 1 }

/-- Conversion of the 16-bit unsigned `holdCount` in `main` to the signed
16-bit `int holdCount` parameter of `OnButtonPressed` (XC8 two's-complement
wrap). -/
def toInt16 (n : Nat) : Int :=
  if n % 65536 < 32768 then ((n % 65536 : Nat) : Int)
  else ((n % 65536 : Nat) : Int) - 65536

/-- The body of `OnButtonPressed(int holdCount)`: while powered on, a press
edge (`holdCount == 0`) arms the power-off sequence, and once armed a hold
count at or past `POWER_OFF_COUNT` executes `POWER_OFF` and disarms; while
powered off, a press edge executes `POWER_ON`. -/
def OnButtonPressed (holdCount : Int) (s : State) : State :=
  if s.poweredOn ≠ 0 then
    let s1 := if holdCount = 0 then { s with powerOffArmed := 1 } else s
    if s1.powerOffArmed ≠ 0 ∧ (POWER_OFF_COUNT : Int) ≤ holdCount then
      { (POWER_OFF s1) with powerOffArmed := 0 }
    else s1
  else
    if holdCount = 0 then POWER_ON s else s

/-- One loop iteration of `main` when the switch pin reads 0 (button
pressed): reset `holdCount` on a fresh edge, call
`OnButtonPressed(holdCount++)` (post-increment, 16-bit wrap), record the
button as pressed. -/
def pressedStep (s : State) : State :=
  let s1 := if s.lastButtonState = 0 then { s with holdCount := 0 } else s
  let s2 := OnButtonPressed (toInt16 s1.holdCount) s1
  { s2 with holdCount := (s1.holdCount + 1) % 65536, lastButtonState := 1 }

/-- One loop iteration of `main`.  `switchHigh` is the sampled value of
`SWITCH_INPUT`: `true` (pin reads 1) means the button is not pressed, in
which case the iteration only records `lastButtonState = 0`. -/
def mainStep (switchHigh : Bool) (s : State) : State :=
  if switchHigh then { s with lastButtonState := 0 } else pressedStep s

/-- The initialization `main` performs before entering the loop, applied to
an arbitrary pre-reset state: locals and the function-static start at 0,
`PORTC` is cleared, and `POWER_OFF` runs ("Start with the supply off"). -/
def mainInit (pre : State) : State :=
  POWER_OFF { pre with PORTC := 0, lastButtonState := 0, holdCount := 0,
                       powerOffArmed := 0 }

/-- The state in which the wake loop starts, right after `main`'s
initialization. -/
def initState : State :=
  mainInit { poweredOn := 0, powerOffArmed := 0, lastButtonState := 0,
             holdCount := 0, TRISC := 0, PORTC := 0 }

/-- Running the wake loop over a list of per-cycle switch samples. -/
def run (inputs : List Bool) (s : State) : State :=
  inputs.foldl (fun t i => mainStep i t) s

/-- `hold n s`: the state after `n` consecutive wake cycles in which the
button is held (the switch pin reads 0). -/
def hold (n : Nat) (s : State) : State :=
  run (List.replicate n false) s

/-- The hold-count value the loop passes to `OnButtonPressed` on a pressed
cycle starting from state `s`: 0 on a fresh press edge, otherwise the
current counter. -/
def observed (s : State) : Nat :=
  if s.lastButtonState = 0 then 0 else s.holdCount

/-- A state is reachable when some finite sequence of switch samples leads
the loop from the post-initialization state to it. -/
def Reachable (s : State) : Prop :=
  ∃ inputs : List Bool, s = run inputs initState

/-- The inductive invariant of the wake loop: `poweredOn` and
`lastButtonState` are genuine flags, the `PORTC` latch stays cleared, the
armed flag is clear whenever the supply is off, and the `TRISC` register
mirrors `poweredOn`. -/
def Inv (s : State) : Prop :=
  s.poweredOn ≤ 1 ∧ s.lastButtonState ≤ 1 ∧ s.PORTC = 0 ∧
  (s.poweredOn = 0 → s.powerOffArmed = 0) ∧
  (s.poweredOn = 0 → s.TRISC = 0b10000000) ∧
  (s.poweredOn = 1 → s.TRISC = 0b00000000)

/-! ## Basic lemmas about the step functions -/

theorem hold_zero (s : State) : hold 0 s = s := rfl

theorem hold_one (s : State) : hold 1 s = pressedStep s := rfl

theorem hold_succ (n : Nat) (s : State) :
    hold (n + 1) s = hold n (pressedStep s) := rfl

theorem hold_add (m n : Nat) (s : State) :
    hold (m + n) s = hold n (hold m s) := by
  induction m generalizing s with
  | zero => rw [Nat.zero_add, hold_zero]
  | succ k ih =>
      rw [Nat.succ_add, hold_succ, ih, hold_succ]

theorem toInt16_small (n : Nat) (h : n < 32768) : toInt16 n = (n : Int) := by
  unfold toInt16
  rw [Nat.mod_eq_of_lt (by omega)]
  rw [if_pos h]

theorem toInt16_ne_zero (n : Nat) (h1 : 1 ≤ n) (h2 : n ≤ 65535) :
    toInt16 n ≠ 0 := by
  unfold toInt16
  rw [Nat.mod_eq_of_lt (by omega)]
  split_ifs with h <;> omega

/-! ## Single-cycle lemmas (concrete field patterns) -/

theorem pressedStep_off_edge (a c t q : Nat) :
    pressedStep ⟨0, a, 0, c, t, q⟩ = ⟨1, a, 1, 1, 0, q⟩ := rfl

theorem pressedStep_off_wrap (a t q : Nat) :
    pressedStep ⟨0, a, 1, 0, t, q⟩ = ⟨1, a, 1, 1, 0, q⟩ := rfl

theorem pressedStep_on_edge (a c t q : Nat) :
    pressedStep ⟨1, a, 0, c, t, q⟩ = ⟨1, 1, 1, 1, t, q⟩ := rfl

theorem pressedStep_on_wrap_arm (a t q : Nat) :
    pressedStep ⟨1, a, 1, 0, t, q⟩ = ⟨1, 1, 1, 1, t, q⟩ := rfl

theorem pressedStep_fire (t q : Nat) :
    pressedStep ⟨1, 1, 1, 18, t, q⟩ = ⟨0, 0, 1, 19, 128, q⟩ := rfl

theorem pressedStep_held_coast (p c t q : Nat) (h1 : 1 ≤ c) (h2 : c ≤ 65535) :
    pressedStep ⟨p, 0, 1, c, t, q⟩ = ⟨p, 0, 1, (c + 1) % 65536, t, q⟩ := by
  have hv : toInt16 c ≠ 0 := toInt16_ne_zero c h1 h2
  by_cases hp : p = 0 <;>
    simp [pressedStep, OnButtonPressed, hp, hv]

theorem pressedStep_armed_count (c t q : Nat) (h1 : 1 ≤ c) (h2 : c ≤ 17) :
    pressedStep ⟨1, 1, 1, c, t, q⟩ = ⟨1, 1, 1, c + 1, t, q⟩ := by
  have hv : toInt16 c = (c : Int) := toInt16_small c (by omega)
  have hz : ¬ ((c : Int) = 0) := by omega
  have hc : POWER_OFF_COUNT = 18 := rfl
  have hge : ¬ ((POWER_OFF_COUNT : Int) ≤ (c : Int)) := by
    rw [hc]; omega
  have hm : (c + 1) % 65536 = c + 1 := Nat.mod_eq_of_lt (by omega)
  simp [pressedStep, OnButtonPressed, hv, hz, hge, hm]

/-! ## Multi-cycle segment lemmas -/

theorem hold_coast (n : Nat) : ∀ (p c t q : Nat), 1 ≤ c → c ≤ 65535 →
    c + n ≤ 65536 →
    hold n ⟨p, 0, 1, c, t, q⟩ = ⟨p, 0, 1, (c + n) % 65536, t, q⟩ := by
  induction n with
  | zero =>
      intro p c t q h1 h2 h3
      rw [Nat.add_zero, Nat.mod_eq_of_lt (by omega), hold_zero]
  | succ m ih =>
      intro p c t q h1 h2 h3
      rw [hold_succ, pressedStep_held_coast p c t q h1 h2]
      by_cases hc : c = 65535
      · have hm0 : m = 0 := by omega
        subst hc hm0
        rw [hold_zero]
      · have he : (c + 1) % 65536 = c + 1 := Nat.mod_eq_of_lt (by omega)
        rw [he, ih p (c + 1) t q (by omega) (by omega) (by omega),
            show c + 1 + m = c + (m + 1) by omega]

theorem hold_armed_count (n : Nat) : ∀ (c t q : Nat), 1 ≤ c → c + n ≤ 18 →
    hold n ⟨1, 1, 1, c, t, q⟩ = ⟨1, 1, 1, c + n, t, q⟩ := by
  induction n with
  | zero =>
      intro c t q h1 h2
      rw [Nat.add_zero, hold_zero]
  | succ m ih =>
      intro c t q h1 h2
      rw [hold_succ, pressedStep_armed_count c t q h1 (by omega),
          ih (c + 1) t q (by omega) (by omega),
          show c + 1 + m = c + (m + 1) by omega]

/-! ## Characterization of a continuous hold from a press edge -/

theorem hold_on_edge_small (a c t q k : Nat) (h1 : 1 ≤ k) (h2 : k ≤ 18) :
    hold k ⟨1, a, 0, c, t, q⟩ = ⟨1, 1, 1, k, t, q⟩ := by
  obtain ⟨m, rfl⟩ : ∃ m, k = 1 + m := ⟨k - 1, by omega⟩
  rw [hold_add, hold_one, pressedStep_on_edge,
      hold_armed_count m 1 t q (by omega) (by omega)]

theorem hold_on_edge_19 (a c t q : Nat) :
    hold 19 ⟨1, a, 0, c, t, q⟩ = ⟨0, 0, 1, 19, 128, q⟩ := by
  rw [show (19 : Nat) = 18 + 1 from rfl, hold_add, hold_one,
      hold_on_edge_small a c t q 18 (by omega) (by omega), pressedStep_fire]

theorem hold_on_edge_fire (a c t q k : Nat) (h1 : 19 ≤ k) (h2 : k ≤ 65536) :
    hold k ⟨1, a, 0, c, t, q⟩ = ⟨0, 0, 1, k % 65536, 128, q⟩ := by
  obtain ⟨m, rfl⟩ : ∃ m, k = 19 + m := ⟨k - 19, by omega⟩
  rw [hold_add, hold_on_edge_19,
      hold_coast m 0 19 128 q (by omega) (by omega) (by omega)]

/-! ## Characterization of a continuous hold from a press edge while off -/

theorem hold_off_edge_on (c t q k : Nat) (h1 : 1 ≤ k) (h2 : k ≤ 65554) :
    (hold k ⟨0, 0, 0, c, t, q⟩).poweredOn = 1 := by
  obtain ⟨m, rfl⟩ : ∃ m, k = 1 + m := ⟨k - 1, by omega⟩
  rw [hold_add, hold_one, pressedStep_off_edge]
  by_cases hm : m ≤ 65535
  · rw [hold_coast m 1 1 0 q (by omega) (by omega) (by omega)]
  · have hsplit : m = 65535 + (1 + (m - 65536)) := by omega
    rw [hsplit, hold_add, hold_coast 65535 1 1 0 q (by omega) (by omega)
          (by omega)]
    norm_num
    rw [hold_add, hold_one, pressedStep_on_wrap_arm,
        hold_armed_count (m - 65536) 1 0 q (by omega) (by omega)]

/-! ## The loop invariant -/

theorem inv_init : Inv initState := by
  show Inv ⟨0, 0, 0, 0, 128, 0⟩
  refine ⟨?_, ?_, rfl, fun _ => rfl, fun _ => rfl, ?_⟩ <;> simp

theorem inv_pressedStep (s : State) (h : Inv s) : Inv (pressedStep s) := by
  obtain ⟨p, a, l, c, t, q⟩ := s
  obtain ⟨hp, hl, hq, ha0, ht0, ht1⟩ := h
  simp only [Inv, pressedStep, OnButtonPressed, POWER_ON, POWER_OFF] at *
  split_ifs at * <;> simp_all

theorem inv_mainStep (i : Bool) (s : State) (h : Inv s) : Inv (mainStep i s) := by
  cases i
  · exact inv_pressedStep s h
  · obtain ⟨p, a, l, c, t, q⟩ := s
    obtain ⟨hp, hl, hq, ha0, ht0, ht1⟩ := h
    show Inv ⟨p, a, 0, c, t, q⟩
    exact ⟨hp, by simp, hq, ha0, ht0, ht1⟩

theorem inv_run (l : List Bool) : ∀ s, Inv s → Inv (run l s) := by
  induction l with
  | nil => intro s h; exact h
  | cons i l ih => intro s h; exact ih _ (inv_mainStep i s h)

theorem reachable_inv (s : State) (h : Reachable s) : Inv s := by
  obtain ⟨inputs, rfl⟩ := h
  exact inv_run inputs initState inv_init

/-! ## Released cycles and the frame of OnButtonPressed -/

theorem run_releases (m : Nat) : ∀ s : State,
    run (List.replicate (m + 1) true) s = { s with lastButtonState := 0 } := by
  induction m with
  | zero => intro s; rfl
  | succ n ih =>
      intro s
      obtain ⟨p, a, l, c, t, q⟩ := s
      exact ih ⟨p, a, 0, c, t, q⟩

theorem OnButtonPressed_frame (v : Int) (s : State) :
    (OnButtonPressed v s).holdCount = s.holdCount ∧
    (OnButtonPressed v s).lastButtonState = s.lastButtonState ∧
    (OnButtonPressed v s).PORTC = s.PORTC := by
  simp only [OnButtonPressed, POWER_ON, POWER_OFF]
  split_ifs <;> simp

theorem pressedStep_holdCount (s : State) :
    (pressedStep s).holdCount
      = ((if s.lastButtonState = 0 then 0 else s.holdCount) + 1) % 65536 ∧
    (pressedStep s).lastButtonState = 1 := by
  by_cases hl : s.lastButtonState = 0 <;>
    simp [pressedStep, hl]

theorem hold_counter_evolution (s : State) (hEdge : s.lastButtonState = 0) :
    ∀ k : Nat, (hold (k + 1) s).holdCount = (k + 1) % 65536 ∧
      (hold (k + 1) s).lastButtonState = 1 := by
  intro k
  induction k with
  | zero =>
      obtain ⟨hc, hl⟩ := pressedStep_holdCount s
      rw [hold_one]
      rw [if_pos hEdge] at hc
      exact ⟨hc, hl⟩
  | succ n ih =>
      obtain ⟨ihc, ihl⟩ := ih
      have h : hold (n + 1 + 1) s = pressedStep (hold (n + 1) s) := by
        rw [hold_add (n + 1) 1, hold_one]
      obtain ⟨hc, hl⟩ := pressedStep_holdCount (hold (n + 1) s)
      rw [if_neg (by rw [ihl]; norm_num)] at hc
      rw [ihc] at hc
      rw [h, hc, hl, Nat.mod_add_mod]
      exact ⟨rfl, rfl⟩

/-! ## Claim theorems -/

/-- Claim C1.  The spec says the power-off threshold is
floor(500 / cyclePeriodMs) = floor(500 / 36) = 13 wake cycles.  The code
instead divides the hold time by the tick RATE: `POWER_OFF_COUNT =
POWER_OFF_TIME_MS / TICK_RATE_HZ = 500 / 27 = 18`, a units slip
(milliseconds divided by hertz), contradicting the source's own comments
that the button "must be held 500 ms" for "the number of ticks before
powering off".  Dividing the hold time by the wake period, as the spec
states, gives 13.  Concretely, from the powered-on state reached by one
press and release, a press edge followed by 13 further held cycles (hold
counter reaching 13) leaves the supply on; it only powers off when the
counter reaches 18 (cycle 19 of the hold). -/
theorem c1_power_off_threshold_units_bug :
    POWER_OFF_COUNT = 18 ∧ POWER_OFF_TIME_MS / WDT_MS = 13 ∧
    POWER_OFF_COUNT ≠ POWER_OFF_TIME_MS / WDT_MS ∧
    (hold 14 (run [false, true] initState)).poweredOn = 1 ∧
    (hold 19 (run [false, true] initState)).poweredOn = 0 := by
  have hs : run [false, true] initState = (⟨1, 0, 0, 1, 0, 0⟩ : State) := rfl
  refine ⟨rfl, rfl, by decide, ?_, ?_⟩
  · rw [hs, hold_on_edge_small 0 1 0 0 14 (by omega) (by omega)]
  · rw [hs, hold_on_edge_19]

/-- Claim C2 counterexample.  In a single continuous hold that starts with a
press edge while the supply is on (the state after one press to power on and
one release), the supply powers off at cycle 19, but the 16-bit hold counter
wraps: it is powered on again by cycle 131090 and a SECOND power-off
executes at cycle 131091, refuting "no second power-off occurs later in the
same continuous hold". -/
theorem c2_counterexample_second_power_off :
    (hold 19 (run [false, true] initState)).poweredOn = 0 ∧
    (hold 131090 (run [false, true] initState)).poweredOn = 1 ∧
    (hold 131091 (run [false, true] initState)).poweredOn = 0 := by
  have hs : run [false, true] initState = (⟨1, 0, 0, 1, 0, 0⟩ : State) := rfl
  have h19 : hold 19 (⟨1, 0, 0, 1, 0, 0⟩ : State) = ⟨0, 0, 1, 19, 128, 0⟩ :=
    hold_on_edge_19 0 1 0 0
  have h65536 : hold 65536 (⟨1, 0, 0, 1, 0, 0⟩ : State) = ⟨0, 0, 1, 0, 128, 0⟩ := by
    rw [show (65536 : Nat) = 19 + 65517 from rfl, hold_add, h19,
        hold_coast 65517 0 19 128 0 (by omega) (by omega) (by omega)]
  have h65537 : hold 65537 (⟨1, 0, 0, 1, 0, 0⟩ : State) = ⟨1, 0, 1, 1, 0, 0⟩ := by
    rw [show (65537 : Nat) = 65536 + 1 from rfl, hold_add, h65536, hold_one,
        pressedStep_off_wrap]
  have h131072 : hold 131072 (⟨1, 0, 0, 1, 0, 0⟩ : State) = ⟨1, 0, 1, 0, 0, 0⟩ := by
    rw [show (131072 : Nat) = 65537 + 65535 from rfl, hold_add, h65537,
        hold_coast 65535 1 1 0 0 (by omega) (by omega) (by omega)]
  have h131073 : hold 131073 (⟨1, 0, 0, 1, 0, 0⟩ : State) = ⟨1, 1, 1, 1, 0, 0⟩ := by
    rw [show (131073 : Nat) = 131072 + 1 from rfl, hold_add, h131072, hold_one,
        pressedStep_on_wrap_arm]
  have h131090 : hold 131090 (⟨1, 0, 0, 1, 0, 0⟩ : State) = ⟨1, 1, 1, 18, 0, 0⟩ := by
    rw [show (131090 : Nat) = 131073 + 17 from rfl, hold_add, h131073,
        hold_armed_count 17 1 0 0 (by omega) (by omega)]
  have h131091 : hold 131091 (⟨1, 0, 0, 1, 0, 0⟩ : State) = ⟨0, 0, 1, 19, 128, 0⟩ := by
    rw [show (131091 : Nat) = 131090 + 1 from rfl, hold_add, h131090, hold_one,
        pressedStep_fire]
  rw [hs]
  exact ⟨by rw [h19], by rw [h131090], by rw [h131091]⟩

/-- Claim C2 (amended: the property holds for continuous holds of at most
2^16 cycles, before the 16-bit hold counter wraps).  For a continuous hold
of k cycles starting with a press edge while the supply is on, the supply is
off after cycle k exactly when k is at least POWER_OFF_COUNT + 1, i.e. the
single power-off happens on the cycle observing hold count POWER_OFF_COUNT
and on no earlier cycle, and the supply stays off for the rest of the
(bounded) hold. -/
theorem c2_power_off_exactly_once_below_wrap (s : State)
    (hOn : s.poweredOn = 1) (hEdge : s.lastButtonState = 0)
    (k : Nat) (hk1 : 1 ≤ k) (hk2 : k ≤ 65536) :
    (hold k s).poweredOn = 0 ↔ POWER_OFF_COUNT + 1 ≤ k := by
  obtain ⟨p, a, l, c, t, q⟩ := s
  have hp : p = 1 := hOn
  have hl : l = 0 := hEdge
  subst hp hl
  have hc : POWER_OFF_COUNT = 18 := rfl
  by_cases h18 : k ≤ 18
  · rw [hold_on_edge_small a c t q k hk1 h18]
    simp [hc]
    omega
  · rw [hold_on_edge_fire a c t q k (by omega) hk2]
    simp [hc]
    omega

/-- Claim C2 witness: instance of the amended theorem at the concrete
powered-on edge-pending state and k = 19. -/
theorem c2_witness :
    ((⟨1, 0, 0, 1, 0, 0⟩ : State).poweredOn = 1 ∧
     (⟨1, 0, 0, 1, 0, 0⟩ : State).lastButtonState = 0 ∧
     1 ≤ 19 ∧ 19 ≤ 65536) ∧
    ((hold 19 (⟨1, 0, 0, 1, 0, 0⟩ : State)).poweredOn = 0 ↔
      POWER_OFF_COUNT + 1 ≤ 19) :=
  ⟨⟨rfl, rfl, by norm_num, by norm_num⟩,
   c2_power_off_exactly_once_below_wrap ⟨1, 0, 0, 1, 0, 0⟩ rfl rfl 19
     (by norm_num) (by norm_num)⟩

/-- Claim C3.  Whenever a press edge (pin sampled low now, not pressed the
previous cycle) is observed while the supply is off, the very next cycle's
processing turns the supply on — the state after that single cycle has
poweredOn = 1 and the output pin driven (TRISC = 0) — with no hold
requirement. -/
theorem c3_power_on_immediate (s : State)
    (hOff : s.poweredOn = 0) (hPrev : s.lastButtonState = 0) :
    (mainStep false s).poweredOn = 1 ∧ (mainStep false s).TRISC = 0 := by
  obtain ⟨p, a, l, c, t, q⟩ := s
  have hp : p = 0 := hOff
  have hl : l = 0 := hPrev
  subst hp hl
  show (pressedStep ⟨0, a, 0, c, t, q⟩).poweredOn = 1 ∧
       (pressedStep ⟨0, a, 0, c, t, q⟩).TRISC = 0
  rw [pressedStep_off_edge]
  exact ⟨rfl, rfl⟩

/-- Claim C3 witness: instance at the initial state. -/
theorem c3_witness :
    (initState.poweredOn = 0 ∧ initState.lastButtonState = 0) ∧
    ((mainStep false initState).poweredOn = 1 ∧
     (mainStep false initState).TRISC = 0) :=
  ⟨⟨rfl, rfl⟩, c3_power_on_immediate initState rfl rfl⟩

/-- Claim C4.  Starting from a press edge while the supply is on, if the
button is released after at most POWER_OFF_COUNT held cycles (so the hold
counter never reached POWER_OFF_COUNT), the supply is still on throughout
and after the whole episode (the k held cycles followed by any number m of
released cycles), and a later new press edge re-runs the full threshold: a
subsequent hold of j cycles with j ≤ POWER_OFF_COUNT still leaves the supply
on, because the counter restarts at 0 on the new edge — the partial hold has
no residual effect. -/
theorem c4_partial_hold_no_residual (s : State)
    (hOn : s.poweredOn = 1) (hEdge : s.lastButtonState = 0) :
    (∀ k m : Nat, k ≤ POWER_OFF_COUNT →
       (run (List.replicate m true) (hold k s)).poweredOn = 1) ∧
    (∀ k m j : Nat, k ≤ POWER_OFF_COUNT → 1 ≤ m → j ≤ POWER_OFF_COUNT →
       (hold j (run (List.replicate m true) (hold k s))).poweredOn = 1) := by
  obtain ⟨p, a, l, c, t, q⟩ := s
  have hp : p = 1 := hOn
  have hl : l = 0 := hEdge
  subst hp hl
  have hc : POWER_OFF_COUNT = 18 := rfl
  rw [hc]
  constructor
  · intro k m hk
    by_cases hk0 : k = 0
    · subst hk0
      rw [hold_zero]
      cases m with
      | zero => rfl
      | succ n => rw [run_releases n]
    · rw [hold_on_edge_small a c t q k (by omega) (by omega)]
      cases m with
      | zero => rfl
      | succ n => rw [run_releases n]
  · intro k m j hk hm hj
    obtain ⟨n, rfl⟩ : ∃ n, m = n + 1 := ⟨m - 1, by omega⟩
    by_cases hj0 : j = 0
    · subst hj0
      rw [hold_zero, run_releases n]
      by_cases hk0 : k = 0
      · subst hk0; rw [hold_zero]
      · rw [hold_on_edge_small a c t q k (by omega) (by omega)]
    · by_cases hk0 : k = 0
      · subst hk0
        rw [hold_zero, run_releases n]
        show (hold j (⟨1, a, 0, c, t, q⟩ : State)).poweredOn = 1
        rw [hold_on_edge_small a c t q j (by omega) (by omega)]
      · rw [hold_on_edge_small a c t q k (by omega) (by omega), run_releases n]
        show (hold j (⟨1, 1, 0, k, t, q⟩ : State)).poweredOn = 1
        rw [hold_on_edge_small 1 k t q j (by omega) (by omega)]

/-- Claim C4 witness: instance at the concrete powered-on edge-pending
state, with a 5-cycle partial hold, a 3-cycle release gap, and a 13-cycle
second hold. -/
theorem c4_witness :
    ((⟨1, 0, 0, 1, 0, 0⟩ : State).poweredOn = 1 ∧
     (⟨1, 0, 0, 1, 0, 0⟩ : State).lastButtonState = 0 ∧
     5 ≤ POWER_OFF_COUNT ∧ 1 ≤ 3 ∧ 13 ≤ POWER_OFF_COUNT) ∧
    (run (List.replicate 3 true) (hold 5 (⟨1, 0, 0, 1, 0, 0⟩ : State))).poweredOn
      = 1 ∧
    (hold 13 (run (List.replicate 3 true)
        (hold 5 (⟨1, 0, 0, 1, 0, 0⟩ : State)))).poweredOn = 1 :=
  ⟨⟨rfl, rfl, by decide, by decide, by decide⟩,
   (c4_partial_hold_no_residual ⟨1, 0, 0, 1, 0, 0⟩ rfl rfl).1 5 3 (by decide),
   (c4_partial_hold_no_residual ⟨1, 0, 0, 1, 0, 0⟩ rfl rfl).2 5 3 13 (by decide)
     (by decide) (by decide)⟩

/-- Claim C5 counterexample.  A continuous hold that starts at power-up
(the button held from the very first wake cycle, supply off) does turn the
supply on at the press edge, but it does NOT stay on for an arbitrarily long
hold: the 16-bit hold counter wraps to 0 after 65536 held cycles, which
re-arms the power-off sequence, and the supply powers off at held cycle
65555. -/
theorem c5_counterexample_long_hold_powers_off :
    (hold 1 initState).poweredOn = 1 ∧
    (hold 65554 initState).poweredOn = 1 ∧
    (hold 65555 initState).poweredOn = 0 := by
  have hs : initState = (⟨0, 0, 0, 0, 128, 0⟩ : State) := rfl
  have h1 : hold 1 (⟨0, 0, 0, 0, 128, 0⟩ : State) = ⟨1, 0, 1, 1, 0, 0⟩ := by
    rw [hold_one, pressedStep_off_edge]
  have h65536 : hold 65536 (⟨0, 0, 0, 0, 128, 0⟩ : State) = ⟨1, 0, 1, 0, 0, 0⟩ := by
    rw [show (65536 : Nat) = 1 + 65535 from rfl, hold_add, h1,
        hold_coast 65535 1 1 0 0 (by omega) (by omega) (by omega)]
  have h65537 : hold 65537 (⟨0, 0, 0, 0, 128, 0⟩ : State) = ⟨1, 1, 1, 1, 0, 0⟩ := by
    rw [show (65537 : Nat) = 65536 + 1 from rfl, hold_add, h65536, hold_one,
        pressedStep_on_wrap_arm]
  have h65554 : hold 65554 (⟨0, 0, 0, 0, 128, 0⟩ : State) = ⟨1, 1, 1, 18, 0, 0⟩ := by
    rw [show (65554 : Nat) = 65537 + 17 from rfl, hold_add, h65537,
        hold_armed_count 17 1 0 0 (by omega) (by omega)]
  have h65555 : hold 65555 (⟨0, 0, 0, 0, 128, 0⟩ : State) = ⟨0, 0, 1, 19, 128, 0⟩ := by
    rw [show (65555 : Nat) = 65554 + 1 from rfl, hold_add, h65554, hold_one,
        pressedStep_fire]
  rw [hs]
  exact ⟨by rw [h1], by rw [h65554], by rw [h65555]⟩

/-- Claim C5 (amended: the property holds for continuous holds of at most
65554 cycles; at 65555 cycles the wrapped counter has re-armed and fired
power-off).  A continuous hold beginning with a press edge while the supply
is off in any reachable state (including the hold that starts at power-up)
turns the supply on at the edge and keeps it on through cycle 65554 of the
hold. -/
theorem c5_long_hold_from_off_bounded (s : State) (hR : Reachable s)
    (hOff : s.poweredOn = 0) (hEdge : s.lastButtonState = 0)
    (k : Nat) (hk1 : 1 ≤ k) (hk2 : k ≤ 65554) :
    (hold k s).poweredOn = 1 := by
  have ha : s.powerOffArmed = 0 := (reachable_inv s hR).2.2.2.1 hOff
  obtain ⟨p, a, l, c, t, q⟩ := s
  have hp : p = 0 := hOff
  have hl : l = 0 := hEdge
  have ha0 : a = 0 := ha
  subst hp hl ha0
  exact hold_off_edge_on c t q k hk1 hk2

/-- Claim C5 witness: instance of the amended theorem at the initial state
(the hold starting at power-up) and k = 65554. -/
theorem c5_witness :
    (initState.poweredOn = 0 ∧ initState.lastButtonState = 0 ∧
     1 ≤ 65554) ∧
    (hold 65554 initState).poweredOn = 1 :=
  ⟨⟨rfl, rfl, by norm_num⟩,
   c5_long_hold_from_off_bounded initState ⟨[], rfl⟩ rfl rfl 65554
     (by norm_num) (by norm_num)⟩

/-- Claim C6 counterexample.  The claim that the k-th consecutively-held
cycle after a press edge observes hold count k fails at k = 65536: the
counter is a 16-bit unsigned integer, so after a press edge at power-up
followed by 65535 further held cycles it has wrapped to 0, and the value
consulted on the 65536-th subsequent held cycle is 0, not 65536. -/
theorem c6_counterexample_counter_wrap :
    (hold 65536 initState).lastButtonState = 1 ∧
    observed (hold 65536 initState) = 0 ∧
    observed (hold 65536 initState) ≠ 65536 := by
  have hs : initState = (⟨0, 0, 0, 0, 128, 0⟩ : State) := rfl
  have h1 : hold 1 (⟨0, 0, 0, 0, 128, 0⟩ : State) = ⟨1, 0, 1, 1, 0, 0⟩ := by
    rw [hold_one, pressedStep_off_edge]
  have h65536 : hold 65536 (⟨0, 0, 0, 0, 128, 0⟩ : State) = ⟨1, 0, 1, 0, 0, 0⟩ := by
    rw [show (65536 : Nat) = 1 + 65535 from rfl, hold_add, h1,
        hold_coast 65535 1 1 0 0 (by omega) (by omega) (by omega)]
  rw [hs, h65536]
  refine ⟨rfl, rfl, by norm_num [observed]⟩

/-- Claim C6 (amended: the value observed on the k-th subsequent held cycle
is k mod 2^16, which equals k only while k < 2^16 — the 16-bit counter
wraps).  The hold counter is reset and then incremented on a press-edge
cycle (so the state machine observes 0 on the edge and the stored counter is
1 afterwards), is incremented exactly once (mod 2^16) per cycle while the
button stays held, the value observed on the k-th subsequent held cycle is
k mod 2^16, and a released cycle does not consult the counter: it only
clears the remembered previous-cycle button level. -/
theorem c6_hold_counter_semantics (s : State) :
    (s.lastButtonState = 0 → observed s = 0) ∧
    (s.lastButtonState = 0 → (pressedStep s).holdCount = 1) ∧
    (s.lastButtonState = 1 →
       (pressedStep s).holdCount = (s.holdCount + 1) % 65536) ∧
    (s.lastButtonState = 0 → ∀ k : Nat, 1 ≤ k →
       (hold k s).lastButtonState = 1 ∧ observed (hold k s) = k % 65536) ∧
    mainStep true s = { s with lastButtonState := 0 } := by
  refine ⟨?_, ?_, ?_, ?_, rfl⟩
  · intro hEdge
    simp [observed, hEdge]
  · intro hEdge
    obtain ⟨hc, _⟩ := pressedStep_holdCount s
    rw [if_pos hEdge] at hc
    rw [hc]
  · intro hHeld
    obtain ⟨hc, _⟩ := pressedStep_holdCount s
    rw [if_neg (by rw [hHeld]; norm_num)] at hc
    exact hc
  · intro hEdge k hk
    obtain ⟨m, rfl⟩ : ∃ m, k = m + 1 := ⟨k - 1, by omega⟩
    obtain ⟨hcnt, hlast⟩ := hold_counter_evolution s hEdge m
    refine ⟨hlast, ?_⟩
    rw [observed, if_neg (by rw [hlast]; norm_num), hcnt]

/-- Claim C6 witness: instance of the amended theorem at the initial state
with a 3-cycle hold. -/
theorem c6_witness :
    (initState.lastButtonState = 0) ∧
    observed initState = 0 ∧
    (pressedStep initState).holdCount = 1 ∧
    ((hold 3 initState).lastButtonState = 1 ∧
     observed (hold 3 initState) = 3 % 65536) ∧
    mainStep true initState = { initState with lastButtonState := 0 } :=
  ⟨rfl, (c6_hold_counter_semantics initState).1 rfl,
   (c6_hold_counter_semantics initState).2.1 rfl,
   (c6_hold_counter_semantics initState).2.2.2.1 rfl 3 (by norm_num),
   (c6_hold_counter_semantics initState).2.2.2.2⟩

/-- Claim C7.  Whatever the state of the microcontroller's memory and
registers before reset, `main`'s initialization code leaves the supply
commanded off (`poweredOn = 0`), the output pin in its disabled
(high-impedance input) configuration (`TRISC = 0b10000000`) with a cleared
latch, the armed flag clear, and in fact produces exactly the canonical
initial state — all before the first wake cycle runs. -/
theorem c7_init_supply_off (pre : State) :
    (mainInit pre).poweredOn = 0 ∧ (mainInit pre).TRISC = 0b10000000 ∧
    (mainInit pre).PORTC = 0 ∧ (mainInit pre).powerOffArmed = 0 ∧
    mainInit pre = initState := by
  obtain ⟨p, a, l, c, t, q⟩ := pre
  exact ⟨rfl, rfl, rfl, rfl, rfl⟩

/-- Claim C7 witness: instance at an arbitrary concrete pre-reset state in
which everything was previously powered on. -/
theorem c7_witness :
    (mainInit ⟨1, 1, 1, 12345, 0, 0⟩).poweredOn = 0 ∧
    (mainInit ⟨1, 1, 1, 12345, 0, 0⟩).TRISC = 0b10000000 ∧
    (mainInit ⟨1, 1, 1, 12345, 0, 0⟩).PORTC = 0 ∧
    (mainInit ⟨1, 1, 1, 12345, 0, 0⟩).powerOffArmed = 0 ∧
    mainInit ⟨1, 1, 1, 12345, 0, 0⟩ = initState :=
  c7_init_supply_off ⟨1, 1, 1, 12345, 0, 0⟩

/-- Claim C8.  In every reachable state the drive configuration of the
output pin mirrors the commanded supply state: the supply is on exactly when
`TRISC = 0b00000000` (RC7 a driven output, low since the `PORTC` latch stays
0), and off exactly when `TRISC = 0b10000000` (RC7 a high-impedance input).
Both are written together by the `POWER_ON` / `POWER_OFF` macros, so every
step that changes one changes the other. -/
theorem c8_pin_mirrors_supply (s : State) (hR : Reachable s) :
    (s.poweredOn = 1 ↔ s.TRISC = 0b00000000) ∧
    (s.poweredOn = 0 ↔ s.TRISC = 0b10000000) ∧
    s.PORTC = 0 := by
  obtain ⟨hp, hl, hq, ha0, ht0, ht1⟩ := reachable_inv s hR
  refine ⟨⟨ht1, ?_⟩, ⟨ht0, ?_⟩, hq⟩
  · intro ht
    rcases (by omega : s.poweredOn = 0 ∨ s.poweredOn = 1) with h | h
    · have := ht0 h
      omega
    · exact h
  · intro ht
    rcases (by omega : s.poweredOn = 0 ∨ s.poweredOn = 1) with h | h
    · exact h
    · have := ht1 h
      omega

/-- Claim C8 witness: instance at the reachable state right after a
power-on press. -/
theorem c8_witness :
    ((run [false] initState).poweredOn = 1 ↔ (run [false] initState).TRISC = 0b00000000) ∧
    ((run [false] initState).poweredOn = 0 ↔ (run [false] initState).TRISC = 0b10000000) ∧
    (run [false] initState).PORTC = 0 :=
  c8_pin_mirrors_supply (run [false] initState) ⟨[false], rfl⟩

/-- Claim C9.  In every reachable state, if the supply is off then the
power-off-armed flag is clear: it starts clear, is only set while the supply
is on, and is cleared in the very step that executes a power-off, so a hold
continuing right after a power-on cannot trigger a power-off. -/
theorem c9_off_implies_disarmed (s : State) (hR : Reachable s)
    (hOff : s.poweredOn = 0) : s.powerOffArmed = 0 :=
  (reachable_inv s hR).2.2.2.1 hOff

/-- Claim C9 witness: instance at the initial state. -/
theorem c9_witness :
    initState.poweredOn = 0 ∧ initState.powerOffArmed = 0 :=
  ⟨rfl, c9_off_implies_disarmed initState ⟨[], rfl⟩ rfl⟩

/-- Claim C10.  On a cycle where the button is sampled as released (the
switch pin reads 1), the supply state, the armed flag, the hold counter and
both modelled registers are left unchanged; the only state written is the
remembered previous-cycle button level, which is set to not-pressed. -/
theorem c10_release_frame (s : State) :
    (mainStep true s).poweredOn = s.poweredOn ∧
    (mainStep true s).powerOffArmed = s.powerOffArmed ∧
    (mainStep true s).holdCount = s.holdCount ∧
    (mainStep true s).TRISC = s.TRISC ∧
    (mainStep true s).PORTC = s.PORTC ∧
    (mainStep true s).lastButtonState = 0 :=
  ⟨rfl, rfl, rfl, rfl, rfl, rfl⟩

/-- Claim C10 witness: instance at the state right after a power-on press,
where all the preserved fields are nontrivial. -/
theorem c10_witness :
    (mainStep true (run [false] initState)).poweredOn
      = (run [false] initState).poweredOn ∧
    (mainStep true (run [false] initState)).powerOffArmed
      = (run [false] initState).powerOffArmed ∧
    (mainStep true (run [false] initState)).holdCount
      = (run [false] initState).holdCount ∧
    (mainStep true (run [false] initState)).TRISC
      = (run [false] initState).TRISC ∧
    (mainStep true (run [false] initState)).PORTC
      = (run [false] initState).PORTC ∧
    (mainStep true (run [false] initState)).lastButtonState = 0 :=
  c10_release_frame (run [false] initState)

end AtxPowerSwitch
